import Mathlib

/-!
Verification of the real-time pose-to-garment fitting pipeline of the VTO
repository (`ClothingFit.js`, `PoseDetection.js`, and the calibration polling
of `bundle.js`).

The JavaScript numeric type is modelled by `ℝ`; `Math.sqrt` by `Real.sqrt`.
THREE.js `Vector3`/`Quaternion` operations used by the source are embedded
below, faithful to the upstream library implementations (`lerp`, `slerp`,
`normalize` with its zero-length guard, `setFromRotationMatrix` on a
column-basis matrix).  Mutation of `this` is modelled by explicit state
passing: `ClothingFit`'s fields become the `FitState` record, and each method
returns the updated state alongside its JavaScript return value.
-/

noncomputable section

open scoped Classical

namespace VTO

/-- 3D vector, mirroring `THREE.Vector3`. -/
structure V3 where
  x : ℝ
  y : ℝ
  z : ℝ


/-- Quaternion, mirroring `THREE.Quaternion` (fields `_x _y _z _w`). -/
structure Quat where
  x : ℝ
  y : ℝ
  z : ℝ
  w : ℝ


/-- `new THREE.Quaternion()` — the identity rotation `(0,0,0,1)`. -/
def Quat.identity : Quat := ⟨0, 0, 0, 1⟩

/-- `Vector3.addVectors`. -/
def vadd (a b : V3) : V3 := ⟨a.x + b.x, a.y + b.y, a.z + b.z⟩

/-- `Vector3.subVectors`. -/
def vsub (a b : V3) : V3 := ⟨a.x - b.x, a.y - b.y, a.z - b.z⟩

/-- `Vector3.multiplyScalar`. -/
def smul (c : ℝ) (v : V3) : V3 := ⟨v.x * c, v.y * c, v.z * c⟩

/-- `Vector3.negate`. -/
def vneg (v : V3) : V3 := ⟨-v.x, -v.y, -v.z⟩

/-- `Vector3.dot`. -/
def dotV (a b : V3) : ℝ := a.x * b.x + a.y * b.y + a.z * b.z

/-- `Vector3.crossVectors`. -/
def crossV (a b : V3) : V3 :=
  ⟨a.y * b.z - a.z * b.y, a.z * b.x - a.x * b.z, a.x * b.y - a.y * b.x⟩

/-- `Vector3.length` — `sqrt(x*x + y*y + z*z)`. -/
def lengthV (v : V3) : ℝ := Real.sqrt (v.x * v.x + v.y * v.y + v.z * v.z)

/-- `Vector3.distanceTo`. -/
def distV (a b : V3) : ℝ := lengthV (vsub a b)

/-- `Vector3.normalize` — `divideScalar(length() || 1)`: a zero-length vector
is divided by `1`, i.e. left unchanged. -/
def normalizeV (v : V3) : V3 :=
  smul (1 / (if lengthV v = 0 then 1 else lengthV v)) v

/-- `Vector3.lerp(target, alpha)`: each component moves toward the target by
the fraction `alpha`. -/
def lerpV (a b : V3) (t : ℝ) : V3 :=
  ⟨a.x + (b.x - a.x) * t, a.y + (b.y - a.y) * t, a.z + (b.z - a.z) * t⟩

/-- `Quaternion.normalize` — zero-length quaternions become the identity. -/
def quatNormalize (q : Quat) : Quat :=
  let l := Real.sqrt (q.x * q.x + q.y * q.y + q.z * q.z + q.w * q.w)
  if l = 0 then ⟨0, 0, 0, 1⟩ else ⟨q.x / l, q.y / l, q.z / l, q.w / l⟩

/-- `Math.atan2`. -/
def atan2 (y x : ℝ) : ℝ :=
  if 0 < x then Real.arctan (y / x)
  else if x < 0 then
    (if 0 ≤ y then Real.arctan (y / x) + Real.pi else Real.arctan (y / x) - Real.pi)
  else
    (if 0 < y then Real.pi / 2 else if y < 0 then -(Real.pi / 2) else 0)

/-- `Number.EPSILON` = 2⁻⁵². -/
def numberEpsilon : ℝ := 1 / 2 ^ 52

/-- `Quaternion.setFromRotationMatrix` applied to
`Matrix4.makeBasis(xAxis, yAxis, zAxis)` (the three axes are the matrix
columns, so `m11 = xAxis.x`, `m12 = yAxis.x`, …). -/
def quatFromBasis (xA yA zA : V3) : Quat :=
  let m11 := xA.x; let m12 := yA.x; let m13 := zA.x
  let m21 := xA.y; let m22 := yA.y; let m23 := zA.y
  let m31 := xA.z; let m32 := yA.z; let m33 := zA.z
  let trace := m11 + m22 + m33
  if 0 < trace then
    let s := 0.5 / Real.sqrt (trace + 1.0)
    ⟨(m32 - m23) * s, (m13 - m31) * s, (m21 - m12) * s, 0.25 / s⟩
  else if m22 < m11 ∧ m33 < m11 then
    let s := 2.0 * Real.sqrt (1.0 + m11 - m22 - m33)
    ⟨0.25 * s, (m12 + m21) / s, (m13 + m31) / s, (m32 - m23) / s⟩
  else if m33 < m22 then
    let s := 2.0 * Real.sqrt (1.0 + m22 - m11 - m33)
    ⟨(m12 + m21) / s, 0.25 * s, (m23 + m32) / s, (m13 - m31) / s⟩
  else
    let s := 2.0 * Real.sqrt (1.0 + m33 - m11 - m22)
    ⟨(m13 + m31) / s, (m23 + m32) / s, 0.25 * s, (m21 - m12) / s⟩

/-- `Quaternion.slerp(qb, t)` on `qa`, following the THREE.js implementation
(shortest-path sign flip, degenerate-angle fallbacks, spherical weights). -/
def slerpQ (qa qb : Quat) (t : ℝ) : Quat :=
  if t = 0 then qa
  else if t = 1 then qb
  else
    let cosHalfTheta0 := qa.w * qb.w + qa.x * qb.x + qa.y * qb.y + qa.z * qb.z
    let b := if cosHalfTheta0 < 0 then (⟨-qb.x, -qb.y, -qb.z, -qb.w⟩ : Quat) else qb
    let cosHalfTheta := if cosHalfTheta0 < 0 then -cosHalfTheta0 else cosHalfTheta0
    if 1 ≤ cosHalfTheta then qa
    else
      let sqrSinHalfTheta := 1 - cosHalfTheta * cosHalfTheta
      if sqrSinHalfTheta ≤ numberEpsilon then
        let s := 1 - t
        quatNormalize ⟨s * qa.x + t * b.x, s * qa.y + t * b.y,
                       s * qa.z + t * b.z, s * qa.w + t * b.w⟩
      else
        let sinHalfTheta := Real.sqrt sqrSinHalfTheta
        let halfTheta := atan2 sinHalfTheta cosHalfTheta
        let ratioA := Real.sin ((1 - t) * halfTheta) / sinHalfTheta
        let ratioB := Real.sin (t * halfTheta) / sinHalfTheta
        ⟨qa.x * ratioA + b.x * ratioB, qa.y * ratioA + b.y * ratioB,
         qa.z * ratioA + b.z * ratioB, qa.w * ratioA + b.w * ratioB⟩

/-- One entry of the keypoint array handed to `ClothingFit`.  `undef` models a
`null`/`undefined` entry (including out-of-range array access); a present
entry carries `x` as `Option ℝ` so that `none` models an `x` field that is not
a number.  `visibility` is carried but — as the source does — never read by
the fitting math. -/
inductive Keypoint
  | undef
  | mk (x : Option ℝ) (y z visibility : ℝ)

/-- `ClothingFit.keypointToVector3`: `null`/`undefined` entries and entries
whose `x` is not a number become the zero vector; well-formed entries map to
`(x, -y, -z)` (Y-up axis flip). -/
def keypointToVector3 : Keypoint → V3
  | .undef => ⟨0, 0, 0⟩
  | .mk none _ _ _ => ⟨0, 0, 0⟩
  | .mk (some x) y z _ => ⟨x, -y, -z⟩

/-- `keypoints[i]` followed by `keypointToVector3`: JavaScript indexing out of
range yields `undefined`, modelled by the `Keypoint.undef` default. -/
def getKP (kp : List Keypoint) (i : ℕ) : V3 :=
  keypointToVector3 (kp.getD i .undef)

/-- `this.userMeasurements` — field order as in the `ClothingFit`
constructor. -/
structure Measurements where
  shoulderWidth : ℝ
  torsoLength : ℝ
  armLength : ℝ
  legLength : ℝ
  hipWidth : ℝ


/-- `this.fitQuality`. -/
structure FitQuality where
  overall : ℝ
  shoulders : ℝ
  torso : ℝ
  arms : ℝ
  legs : ℝ


/-- A position/rotation/scale triple (one entry of `this.previousTransforms`,
and the target transform of the solver). -/
structure Transform where
  position : V3
  rotation : Quat
  scale : V3

/-- The mutable fields of the `ClothingFit` singleton.  `previousTransforms`
(a JavaScript `Map` keyed by mesh `uuid`) is modelled as an association
list. -/
structure FitState where
  smoothingFactor : ℝ
  previousTransforms : List (ℕ × Transform)
  userMeasurements : Measurements
  isCalibrated : Bool
  fitQuality : FitQuality

/-- The `ClothingFit` constructor: smoothing factor 0.8, empty transform map,
zeroed measurements, uncalibrated, zeroed fit quality. -/
def initState : FitState :=
  { smoothingFactor := 0.8
    previousTransforms := []
    userMeasurements := ⟨0, 0, 0, 0, 0⟩
    isCalibrated := false
    fitQuality := ⟨0, 0, 0, 0, 0⟩ }

/-- `Map.get` on `previousTransforms`. -/
def mapGet (m : List (ℕ × Transform)) (k : ℕ) : Option Transform :=
  (m.find? fun p => p.1 = k).map Prod.snd

/-- `Map.set` on `previousTransforms`: replaces the entry if the key is
present, otherwise appends it. -/
def mapSet (m : List (ℕ × Transform)) (k : ℕ) (v : Transform) :
    List (ℕ × Transform) :=
  if (m.find? fun p => p.1 = k).isSome then
    m.map fun p => if p.1 = k then (k, v) else p
  else m ++ [(k, v)]

/-- The measurement record computed by the body of
`ClothingFit.calculateBodyMeasurements` once its length guard has passed:
shoulder and hip widths are endpoint distances, torso length is the distance
between the shoulder and hip midpoints, and arm/leg lengths are the averages
over both sides of the two-segment sums shoulder→elbow→wrist and
hip→knee→ankle. -/
def measurementsOf (kp : List Keypoint) : Measurements :=
  let leftShoulder := getKP kp 11
  let rightShoulder := getKP kp 12
  let leftHip := getKP kp 23
  let rightHip := getKP kp 24
  let leftElbow := getKP kp 13
  let rightElbow := getKP kp 14
  let leftWrist := getKP kp 15
  let rightWrist := getKP kp 16
  let leftKnee := getKP kp 25
  let rightKnee := getKP kp 26
  let leftAnkle := getKP kp 27
  let rightAnkle := getKP kp 28
  let shoulderMidpoint := smul 0.5 (vadd leftShoulder rightShoulder)
  let hipMidpoint := smul 0.5 (vadd leftHip rightHip)
  let leftArmLength := distV leftShoulder leftElbow + distV leftElbow leftWrist
  let rightArmLength := distV rightShoulder rightElbow + distV rightElbow rightWrist
  let leftLegLength := distV leftHip leftKnee + distV leftKnee leftAnkle
  let rightLegLength := distV rightHip rightKnee + distV rightKnee rightAnkle
  { shoulderWidth := distV leftShoulder rightShoulder
    hipWidth := distV leftHip rightHip
    torsoLength := distV shoulderMidpoint hipMidpoint
    armLength := (leftArmLength + rightArmLength) / 2
    legLength := (leftLegLength + rightLegLength) / 2 }

/-- `ClothingFit.calculateBodyMeasurements`: if the keypoint array is missing
or has fewer than 33 entries the method returns at once, leaving
`this.userMeasurements` untouched; otherwise it overwrites
`this.userMeasurements` with the freshly computed record. -/
def calculateBodyMeasurements (st : FitState) (kp? : Option (List Keypoint)) :
    FitState :=
  match kp? with
  | none => st
  | some kp =>
    if kp.length < 33 then st
    else { st with userMeasurements := measurementsOf kp }

/-- `ClothingFit.checkTpose`: both shoulder→wrist unit vectors must have
absolute dot product below 0.3 with the hip-midpoint→shoulder-midpoint unit
vector (and the array must have at least 33 entries). -/
def checkTpose (kp : List Keypoint) : Prop :=
  let leftShoulder := getKP kp 11
  let rightShoulder := getKP kp 12
  let leftWrist := getKP kp 15
  let rightWrist := getKP kp 16
  let leftHip := getKP kp 23
  let rightHip := getKP kp 24
  let leftArmVector := normalizeV (vsub leftWrist leftShoulder)
  let rightArmVector := normalizeV (vsub rightWrist rightShoulder)
  let torsoVector := normalizeV (vsub
    (smul 0.5 (vadd leftShoulder rightShoulder))
    (smul 0.5 (vadd leftHip rightHip)))
  let leftDot := |dotV leftArmVector torsoVector|
  let rightDot := |dotV rightArmVector torsoVector|
  33 ≤ kp.length ∧ leftDot < 0.3 ∧ rightDot < 0.3

/-- `ClothingFit.calibrate`: returns `false` without touching the state when
the array is missing, shorter than 33, or not a T-pose; otherwise overwrites
`this.userMeasurements`, sets `this.isCalibrated = true`, and returns
`true`. -/
def calibrate (st : FitState) (kp? : Option (List Keypoint)) :
    Bool × FitState :=
  match kp? with
  | none => (false, st)
  | some kp =>
    if kp.length < 33 then (false, st)
    else if checkTpose kp then
      (true, { calculateBodyMeasurements st (some kp) with isCalibrated := true })
    else (false, st)

/-- `ClothingFit.calculateQualityScore`: 1.0 inside the inclusive ideal band,
otherwise `max(0, 1 - 2*deviation)` past the violated edge. -/
def calculateQualityScore (ratio minIdeal maxIdeal : ℝ) : ℝ :=
  if minIdeal ≤ ratio ∧ ratio ≤ maxIdeal then 1.0
  else if ratio < minIdeal then max 0 (1 - (minIdeal - ratio) * 2)
  else max 0 (1 - (ratio - maxIdeal) * 2)

/-- The live mesh transform mutated by `updateModelFit` (`model.position`,
`model.quaternion`, `model.scale`), with the `uuid` used as smoothing key. -/
structure ModelState where
  uuid : ℕ
  position : V3
  quaternion : Quat
  scale : V3

/-- `ClothingFit.calculateFitQuality`: per-category measurement/scale ratios
mapped through `calculateQualityScore` and combined by fixed weights; the
stored `fitQuality` is first reset to zero.  Unknown categories leave the
reset zeros in place, and the guard returns the state unchanged. -/
def calculateFitQuality (st : FitState) (modelType : String)
    (kp? : Option (List Keypoint)) (model? : Option ModelState) : FitState :=
  match kp?, model? with
  | some kp, some model =>
    if kp.length < 33 then st
    else
      let reset : FitQuality := ⟨0, 0, 0, 0, 0⟩
      if modelType = "tshirt" ∨ modelType = "shirt" then
        let shoulderRatio := st.userMeasurements.shoulderWidth / (model.scale.x * 0.4)
        let shoulders := calculateQualityScore shoulderRatio 0.9 1.1
        let torsoRatio := st.userMeasurements.torsoLength / (model.scale.y * 0.6)
        let torso := calculateQualityScore torsoRatio 0.9 1.1
        { st with fitQuality :=
          { reset with shoulders := shoulders, torso := torso,
                       overall := shoulders * 0.6 + torso * 0.4 } }
      else if modelType = "jacket" ∨ modelType = "hoodie" then
        let jacketShoulderRatio := st.userMeasurements.shoulderWidth / (model.scale.x * 0.44)
        let shoulders := calculateQualityScore jacketShoulderRatio 0.85 1.05
        let jacketTorsoRatio := st.userMeasurements.torsoLength / (model.scale.y * 0.63)
        let torso := calculateQualityScore jacketTorsoRatio 0.85 1.05
        let armRatio := st.userMeasurements.armLength / (model.scale.x * 0.7)
        let arms := calculateQualityScore armRatio 0.9 1.1
        { st with fitQuality :=
          { reset with shoulders := shoulders, torso := torso, arms := arms,
                       overall := shoulders * 0.4 + torso * 0.3 + arms * 0.3 } }
      else if modelType = "pants" then
        let hipRatio := st.userMeasurements.hipWidth / (model.scale.x * 0.4)
        let torso := calculateQualityScore hipRatio 0.9 1.1
        let legRatio := st.userMeasurements.legLength / (model.scale.y * 0.9)
        let legs := calculateQualityScore legRatio 0.9 1.1
        { st with fitQuality :=
          { reset with torso := torso, legs := legs,
                       overall := torso * 0.4 + legs * 0.6 } }
      else { st with fitQuality := reset }
  | _, _ => st

/-- The base measurements parameter of `updateModelFit` (from
`ModelLoader.getBaseMeasurements`). -/
structure BaseMeasurements where
  shoulderWidth : ℝ
  torsoLength : ℝ
  armLength : ℝ
  legLength : ℝ
  hipWidth : ℝ

/-- The `options` parameter of `updateModelFit` with its defaults. -/
structure FitOptions where
  sizeAdjustment : ℝ := 1.0
  modelType : String := "tshirt"

/-- The target (pre-smoothing) position, rotation and scale computed by the
`switch (modelType)` of `ClothingFit.updateModelFit` (lines 364–474):
midpoints, per-category scale ratios, and the orthonormal-basis rotation. -/
def solveTarget (kp : List Keypoint) (baseMeasurements : BaseMeasurements)
    (sizeAdjustment : ℝ) (modelType : String) : Transform :=
  let leftShoulder := getKP kp 11
  let rightShoulder := getKP kp 12
  let leftHip := getKP kp 23
  let rightHip := getKP kp 24
  let leftAnkle := getKP kp 27
  let rightAnkle := getKP kp 28
  let shoulderMidpoint := smul 0.5 (vadd leftShoulder rightShoulder)
  let hipMidpoint := smul 0.5 (vadd leftHip rightHip)
  if modelType = "tshirt" ∨ modelType = "shirt" then
    let shoulderWidth := distV leftShoulder rightShoulder
    let torsoLength := distV shoulderMidpoint hipMidpoint
    let shoulderScale := shoulderWidth / baseMeasurements.shoulderWidth
    let torsoScale := torsoLength / baseMeasurements.torsoLength
    let shoulderVector := normalizeV (vsub rightShoulder leftShoulder)
    let upVector := normalizeV (vsub shoulderMidpoint hipMidpoint)
    let forwardVector := normalizeV (crossV shoulderVector upVector)
    { position := smul 0.5 (vadd shoulderMidpoint hipMidpoint)
      rotation := quatFromBasis shoulderVector upVector forwardVector
      scale := ⟨shoulderScale * sizeAdjustment,
                torsoScale * sizeAdjustment,
                (shoulderScale + torsoScale) / 2 * sizeAdjustment⟩ }
  else if modelType = "jacket" ∨ modelType = "hoodie" then
    let jacketShoulderWidth := distV leftShoulder rightShoulder
    let jacketTorsoLength := distV shoulderMidpoint hipMidpoint
    let jacketShoulderScale := jacketShoulderWidth / baseMeasurements.shoulderWidth * 1.1
    let jacketTorsoScale := jacketTorsoLength / baseMeasurements.torsoLength * 1.05
    let jacketShoulderVector := normalizeV (vsub rightShoulder leftShoulder)
    let jacketUpVector := normalizeV (vsub shoulderMidpoint hipMidpoint)
    let jacketForwardVector := normalizeV (crossV jacketShoulderVector jacketUpVector)
    { position := smul 0.5 (vadd shoulderMidpoint hipMidpoint)
      rotation := quatFromBasis jacketShoulderVector jacketUpVector jacketForwardVector
      scale := ⟨jacketShoulderScale * sizeAdjustment,
                jacketTorsoScale * sizeAdjustment,
                (jacketShoulderScale + jacketTorsoScale) / 2 * sizeAdjustment⟩ }
  else if modelType = "pants" then
    let hipWidth := distV leftHip rightHip
    let legLength := (distV leftHip leftAnkle + distV rightHip rightAnkle) / 2
    let hipScale := hipWidth / baseMeasurements.hipWidth
    let legScale := legLength / baseMeasurements.legLength
    let hipVector := normalizeV (vsub rightHip leftHip)
    let legVector := normalizeV (vsub hipMidpoint (smul 0.5 (vadd leftAnkle rightAnkle)))
    let pantsForwardVector := normalizeV (crossV hipVector legVector)
    { position := hipMidpoint
      rotation := quatFromBasis hipVector (vneg legVector) pantsForwardVector
      scale := ⟨hipScale * sizeAdjustment,
                legScale * sizeAdjustment,
                hipScale * sizeAdjustment⟩ }
  else
    { position := shoulderMidpoint
      rotation := Quat.identity
      scale := smul sizeAdjustment ⟨1, 1, 1⟩ }

/-- The object returned by `updateModelFit` on success. -/
structure FitResult where
  position : V3
  rotation : Quat
  scale : V3
  fitQuality : FitQuality

/-- `ClothingFit.updateModelFit`: on a missing model or keypoint array, or
fewer than 33 keypoints, nothing happens and `undefined` (`none`) is returned.
Otherwise: `this.userMeasurements` is recomputed, the target transform is
solved per category, a `previousTransforms` entry is created from the target
if the mesh's `uuid` is not yet mapped, the mesh transform is lerped/slerped
from its current value toward the target with weight `1 - smoothingFactor`
(the map entry being overwritten with the applied transform), fit quality is
recomputed against the smoothed scale, and the applied transform plus fit
quality is returned. -/
def updateModelFit (st : FitState) (model? : Option ModelState)
    (kp? : Option (List Keypoint)) (baseMeasurements : BaseMeasurements)
    (opts : FitOptions) : FitState × Option ModelState × Option FitResult :=
  match model?, kp? with
  | some model, some kp =>
    if kp.length < 33 then (st, some model, none)
    else
      let st1 := calculateBodyMeasurements st (some kp)
      let target := solveTarget kp baseMeasurements opts.sizeAdjustment opts.modelType
      let modelId := model.uuid
      let st2 :=
        if (mapGet st1.previousTransforms modelId).isSome then st1
        else { st1 with previousTransforms := mapSet st1.previousTransforms modelId target }
      let newPosition := lerpV model.position target.position (1 - st.smoothingFactor)
      let newQuaternion := slerpQ model.quaternion target.rotation (1 - st.smoothingFactor)
      let newScale := lerpV model.scale target.scale (1 - st.smoothingFactor)
      let model' := { model with position := newPosition, quaternion := newQuaternion, scale := newScale }
      let st3 := { st2 with previousTransforms := mapSet st2.previousTransforms modelId ⟨newPosition, newQuaternion, newScale⟩ }
      let st4 := calculateFitQuality st3 opts.modelType (some kp) (some model')
      (st4, some model', some ⟨newPosition, newQuaternion, newScale, st4.fitQuality⟩)
  | _, _ => (st, model?, none)

/-- One MediaPipe landmark (`poseLandmarks` / `poseWorldLandmarks` entry). -/
structure Landmark where
  x : ℝ
  y : ℝ
  z : ℝ
  visibility : ℝ

/-- The `results` object delivered by MediaPipe (`none` fields model a
missing/undefined array). -/
structure PoseResults where
  poseLandmarks : Option (List Landmark)
  poseWorldLandmarks : Option (List Landmark)

/-- `PoseDetection.extractKeypoints3D`: returns `[]` when either landmark
array is missing, else pairs each world landmark with the visibility of the
image-space landmark at the same index (`visibility || 0`; the out-of-range
pairing, unreachable for MediaPipe's equal-length arrays and for the empty
arrays used by the calibration poll, is modelled as visibility 0). -/
def extractKeypoints3D (results : PoseResults) : List Keypoint :=
  match results.poseLandmarks, results.poseWorldLandmarks with
  | some pl, some wl =>
    wl.mapIdx fun i landmark =>
      let visibility :=
        match pl.get? i with
        | some p => if p.visibility = 0 then 0 else p.visibility
        | none => 0
      Keypoint.mk (some landmark.x) landmark.y landmark.z visibility
  | _, _ => []

/-- Replaces an invalid keypoint entry (`null`/`undefined`/non-numeric `x`)
by a well-formed zero-position entry; well-formed entries are untouched.
Used to state that the fitting math treats invalid entries exactly as
degenerate zero positions. -/
def sanitizeKP : Keypoint → Keypoint
  | .mk (some x) y z v => .mk (some x) y z v
  | _ => .mk (some 0) 0 0 0

/-- A 33-entry keypoint list described by an entry function. -/
def mkKP (f : ℕ → Keypoint) : List Keypoint := (List.range 33).map f

/-- Synthetic T-pose frame: raw coordinates chosen so that after the
`(x, -y, -z)` conversion the shoulders sit at `(∓0.5, 1, 0)`, the hips at
`(∓0.5, 0, 0)`, and the wrists at `(∓1.5, 1, 0)` — both shoulder→wrist
vectors exactly perpendicular to the hip-mid→shoulder-mid axis. -/
def tposeEntry (i : ℕ) : Keypoint :=
  if i = 11 then .mk (some (-0.5)) (-1) 0 0
  else if i = 12 then .mk (some 0.5) (-1) 0 0
  else if i = 15 then .mk (some (-1.5)) (-1) 0 0
  else if i = 16 then .mk (some 1.5) (-1) 0 0
  else if i = 23 then .mk (some (-0.5)) 0 0 0
  else if i = 24 then .mk (some 0.5) 0 0 0
  else .mk (some 0) 0 0 0

/-- The synthetic T-pose landmark frame. -/
def tposeKP : List Keypoint := mkKP tposeEntry

/-- Same body as `tposeEntry`, but the wrists hang at `(∓0.5, 0, 0)` after
conversion: both arm vectors are parallel (anti-parallel) to the torso
axis. -/
def armsDownEntry (i : ℕ) : Keypoint :=
  if i = 11 then .mk (some (-0.5)) (-1) 0 0
  else if i = 12 then .mk (some 0.5) (-1) 0 0
  else if i = 15 then .mk (some (-0.5)) 0 0 0
  else if i = 16 then .mk (some 0.5) 0 0 0
  else if i = 23 then .mk (some (-0.5)) 0 0 0
  else if i = 24 then .mk (some 0.5) 0 0 0
  else .mk (some 0) 0 0 0

/-- The arms-hanging-down landmark frame. -/
def armsDownKP : List Keypoint := mkKP armsDownEntry

/-- A fresh mesh at the scene origin with identity rotation and unit scale. -/
def model0 : ModelState :=
  { uuid := 0
    position := ⟨0, 0, 0⟩
    quaternion := ⟨0, 0, 0, 1⟩
    scale := ⟨1, 1, 1⟩ }

/-- Sample base measurements (the `ModelLoader` defaults, with a hip width
added since the pants branch reads one). -/
def base0 : BaseMeasurements :=
  { shoulderWidth := 0.4
    torsoLength := 0.6
    armLength := 0.7
    legLength := 0.9
    hipWidth := 0.4 }

/-- A state in which earlier successful extractions left non-zero
measurements behind. -/
def stNonzero : FitState :=
  { initState with userMeasurements := ⟨1, 1, 1, 1, 1⟩ }

/-! ### Helper lemmas -/

lemma length_mkKP (f : ℕ → Keypoint) : (mkKP f).length = 33 := by
  simp [mkKP]

lemma getKP_mkKP (f : ℕ → Keypoint) (i : ℕ) (h : i < 33) :
    getKP (mkKP f) i = keypointToVector3 (f i) := by
  simp [getKP, mkKP, List.getD, List.getElem?_map, List.getElem?_range, h]

/-! ### C3 — fit quality score -/

/-- C3: for every ratio and ideal band `[lo, hi]` with `lo ≤ hi`, the quality
score is exactly `1.0` on the inclusive band, and otherwise
`max 0 (1 - 2·deviation)` where the deviation is the distance from the ratio
to the nearest band edge; at the fitted-shirt band `[0.9, 1.1]`, ratio `1.1`
scores `1.0` and ratio `1.2` scores `0.8`. -/
theorem quality_score_spec (r lo hi : ℝ) (h : lo ≤ hi) :
    ((lo ≤ r ∧ r ≤ hi) → calculateQualityScore r lo hi = 1) ∧
    (¬(lo ≤ r ∧ r ≤ hi) →
      calculateQualityScore r lo hi = max 0 (1 - 2 * min |r - lo| |r - hi|)) ∧
    calculateQualityScore 1.1 0.9 1.1 = 1 ∧
    calculateQualityScore 1.2 0.9 1.1 = 0.8 := by
  refine ⟨fun hband => ?_, fun hout => ?_, ?_, ?_⟩
  · rw [calculateQualityScore, if_pos hband]
    norm_num
  · rw [calculateQualityScore, if_neg hout]
    rcases not_and_or.mp hout with hlo | hhi
    · have hlt : r < lo := lt_of_not_le hlo
      rw [if_pos hlt]
      have h1 : |r - lo| = lo - r := by
        rw [abs_of_nonpos (by linarith)]; ring
      have h2 : |r - hi| = hi - r := by
        rw [abs_of_nonpos (by linarith)]; ring
      rw [h1, h2, min_eq_left (by linarith)]
      congr 1; ring
    · have hlt : hi < r := lt_of_not_le hhi
      rw [if_neg (not_lt.mpr (by linarith))]
      have h1 : |r - lo| = r - lo := abs_of_nonneg (by linarith)
      have h2 : |r - hi| = r - hi := abs_of_nonneg (by linarith)
      rw [h1, h2, min_eq_right (by linarith)]
      congr 1; ring
  · rw [calculateQualityScore, if_pos (by norm_num)]
    norm_num
  · rw [calculateQualityScore, if_neg (by norm_num), if_neg (by norm_num)]
    norm_num

/-- Witness for C3: the band hypothesis discharged at the concrete fitted
band, evaluating the off-band score. -/
theorem quality_score_spec_witness : calculateQualityScore 1.2 0.9 1.1 = 0.8 :=
  (quality_score_spec 1.2 0.9 1.1 (by norm_num)).2.2.2

/-! ### C9 — solver guard -/

/-- C9: with a missing model, a missing keypoint array, or fewer than 33
keypoints, `updateModelFit` returns no transform (`undefined`, modelled as
`none`), throws nothing, and leaves both the `ClothingFit` state (stored
measurements, smoothing map, calibration flag, fit quality) and the mesh
transform untouched. -/
theorem solver_guard_spec :
    (∀ (st : FitState) (base : BaseMeasurements) (opts : FitOptions)
        (kp? : Option (List Keypoint)),
        updateModelFit st none kp? base opts = (st, none, none)) ∧
    (∀ (st : FitState) (base : BaseMeasurements) (opts : FitOptions)
        (m : ModelState),
        updateModelFit st (some m) none base opts = (st, some m, none)) ∧
    (∀ (st : FitState) (base : BaseMeasurements) (opts : FitOptions)
        (m : ModelState) (kp : List Keypoint), kp.length < 33 →
        updateModelFit st (some m) (some kp) base opts = (st, some m, none)) := by
  refine ⟨fun st base opts kp? => ?_, fun st base opts m => rfl,
    fun st base opts m kp h => ?_⟩
  · cases kp? <;> rfl
  · rw [updateModelFit, if_pos h]

/-- Witness for C9: the short-input hypothesis discharged on an empty
keypoint array. -/
theorem solver_guard_spec_witness :
    updateModelFit initState (some model0) (some []) base0 {} =
      (initState, some model0, none) :=
  solver_guard_spec.2.2 initState base0 {} model0 [] (by norm_num)

/-! ### C7 — calibration polling (bundle.js) -/

/-- C7 (code bug): the 500 ms calibration poll of `VirtualTryOn.calibrate`
passes the hardcoded object `{ poseLandmarks: [], poseWorldLandmarks: [] }`
to `extractKeypoints3D` instead of the latest snapshot, so every poll hands
`ClothingFit.calibrate` an empty keypoint array, which fails and leaves the
state unchanged — a held T-pose can never make a poll succeed, and every
calibration attempt times out. -/
theorem calibration_poll_empty :
    extractKeypoints3D ⟨some [], some []⟩ = [] ∧
    ∀ st : FitState,
      calibrate st (some (extractKeypoints3D ⟨some [], some []⟩)) = (false, st) := by
  refine ⟨rfl, fun st => ?_⟩
  rw [calibrate]
  norm_num [extractKeypoints3D]

/-! ### C8 — extractor failure is not a zeroed result -/

/-- Counterexample for C8: after earlier calls stored non-zero measurements,
a call on a too-short landmark list leaves those stored measurements in
place — the observable measurements are not the zeroed default. -/
theorem extract_short_cex :
    (calculateBodyMeasurements stNonzero (some [])).userMeasurements ≠
      (⟨0, 0, 0, 0, 0⟩ : Measurements) := by
  have h : calculateBodyMeasurements stNonzero (some []) = stNonzero := by
    rw [calculateBodyMeasurements]
    norm_num
  rw [h]
  intro hEq
  have := congrArg Measurements.shoulderWidth hEq
  simp [stNonzero, initState] at this

/-- C8 amended: a call with a missing or too-short landmark list returns no
result and leaves the entire state — in particular the stored measurements —
unchanged; the zeroed measurements are only the constructor default. -/
theorem extract_short_spec :
    (∀ (st : FitState) (kp? : Option (List Keypoint)),
      (kp? = none ∨ ∃ kp, kp? = some kp ∧ kp.length < 33) →
      calculateBodyMeasurements st kp? = st) ∧
    initState.userMeasurements = ⟨0, 0, 0, 0, 0⟩ := by
  refine ⟨fun st kp? h => ?_, rfl⟩
  rcases h with h | ⟨kp, rfl, hlen⟩
  · rw [h]; rfl
  · rw [calculateBodyMeasurements, if_pos hlen]

/-- Witness for C8's amended theorem: the short-input hypothesis discharged
on the empty list. -/
theorem extract_short_spec_witness :
    calculateBodyMeasurements stNonzero (some []) = stNonzero :=
  extract_short_spec.1 stNonzero (some [])
    (Or.inr ⟨[], rfl, by norm_num⟩)

/-! ### Concrete landmark evaluations -/

lemma getKP_tpose_11 : getKP tposeKP 11 = ⟨-0.5, 1, 0⟩ := by
  rw [tposeKP, getKP_mkKP _ _ (by norm_num)]
  norm_num [tposeEntry, keypointToVector3]

lemma getKP_tpose_12 : getKP tposeKP 12 = ⟨0.5, 1, 0⟩ := by
  rw [tposeKP, getKP_mkKP _ _ (by norm_num)]
  norm_num [tposeEntry, keypointToVector3]

lemma getKP_tpose_15 : getKP tposeKP 15 = ⟨-1.5, 1, 0⟩ := by
  rw [tposeKP, getKP_mkKP _ _ (by norm_num)]
  norm_num [tposeEntry, keypointToVector3]

lemma getKP_tpose_16 : getKP tposeKP 16 = ⟨1.5, 1, 0⟩ := by
  rw [tposeKP, getKP_mkKP _ _ (by norm_num)]
  norm_num [tposeEntry, keypointToVector3]

lemma getKP_tpose_23 : getKP tposeKP 23 = ⟨-0.5, 0, 0⟩ := by
  rw [tposeKP, getKP_mkKP _ _ (by norm_num)]
  norm_num [tposeEntry, keypointToVector3]

lemma getKP_tpose_24 : getKP tposeKP 24 = ⟨0.5, 0, 0⟩ := by
  rw [tposeKP, getKP_mkKP _ _ (by norm_num)]
  norm_num [tposeEntry, keypointToVector3]

lemma getKP_armsDown_11 : getKP armsDownKP 11 = ⟨-0.5, 1, 0⟩ := by
  rw [armsDownKP, getKP_mkKP _ _ (by norm_num)]
  norm_num [armsDownEntry, keypointToVector3]

lemma getKP_armsDown_12 : getKP armsDownKP 12 = ⟨0.5, 1, 0⟩ := by
  rw [armsDownKP, getKP_mkKP _ _ (by norm_num)]
  norm_num [armsDownEntry, keypointToVector3]

lemma getKP_armsDown_15 : getKP armsDownKP 15 = ⟨-0.5, 0, 0⟩ := by
  rw [armsDownKP, getKP_mkKP _ _ (by norm_num)]
  norm_num [armsDownEntry, keypointToVector3]

lemma getKP_armsDown_16 : getKP armsDownKP 16 = ⟨0.5, 0, 0⟩ := by
  rw [armsDownKP, getKP_mkKP _ _ (by norm_num)]
  norm_num [armsDownEntry, keypointToVector3]

lemma getKP_armsDown_23 : getKP armsDownKP 23 = ⟨-0.5, 0, 0⟩ := by
  rw [armsDownKP, getKP_mkKP _ _ (by norm_num)]
  norm_num [armsDownEntry, keypointToVector3]

lemma getKP_armsDown_24 : getKP armsDownKP 24 = ⟨0.5, 0, 0⟩ := by
  rw [armsDownKP, getKP_mkKP _ _ (by norm_num)]
  norm_num [armsDownEntry, keypointToVector3]

lemma normalizeV_unit_x_neg : normalizeV ⟨-1, 0, 0⟩ = ⟨-1, 0, 0⟩ := by
  rw [normalizeV, lengthV]
  norm_num [smul]

lemma normalizeV_unit_x_pos : normalizeV ⟨1, 0, 0⟩ = ⟨1, 0, 0⟩ := by
  rw [normalizeV, lengthV]
  norm_num [smul]

lemma normalizeV_unit_y_pos : normalizeV ⟨0, 1, 0⟩ = ⟨0, 1, 0⟩ := by
  rw [normalizeV, lengthV]
  norm_num [smul]

lemma normalizeV_unit_y_neg : normalizeV ⟨0, -1, 0⟩ = ⟨0, -1, 0⟩ := by
  rw [normalizeV, lengthV]
  norm_num [smul]

lemma checkTpose_tposeKP : checkTpose tposeKP := by
  unfold checkTpose
  rw [getKP_tpose_11, getKP_tpose_12, getKP_tpose_15, getKP_tpose_16,
    getKP_tpose_23, getKP_tpose_24]
  refine ⟨by rw [tposeKP, length_mkKP], ?_, ?_⟩
  · have h1 : vsub (⟨-1.5, 1, 0⟩ : V3) ⟨-0.5, 1, 0⟩ = ⟨-1, 0, 0⟩ := by
      norm_num [vsub]
    have h2 : vsub (smul 0.5 (vadd (⟨-0.5, 1, 0⟩ : V3) ⟨0.5, 1, 0⟩))
        (smul 0.5 (vadd (⟨-0.5, 0, 0⟩ : V3) ⟨0.5, 0, 0⟩)) = ⟨0, 1, 0⟩ := by
      norm_num [vsub, vadd, smul]
    rw [h1, h2, normalizeV_unit_x_neg, normalizeV_unit_y_pos]
    norm_num [dotV]
  · have h1 : vsub (⟨1.5, 1, 0⟩ : V3) ⟨0.5, 1, 0⟩ = ⟨1, 0, 0⟩ := by
      norm_num [vsub]
    have h2 : vsub (smul 0.5 (vadd (⟨-0.5, 1, 0⟩ : V3) ⟨0.5, 1, 0⟩))
        (smul 0.5 (vadd (⟨-0.5, 0, 0⟩ : V3) ⟨0.5, 0, 0⟩)) = ⟨0, 1, 0⟩ := by
      norm_num [vsub, vadd, smul]
    rw [h1, h2, normalizeV_unit_x_pos, normalizeV_unit_y_pos]
    norm_num [dotV]

lemma not_checkTpose_armsDownKP : ¬checkTpose armsDownKP := by
  unfold checkTpose
  rw [getKP_armsDown_11, getKP_armsDown_12, getKP_armsDown_15,
    getKP_armsDown_16, getKP_armsDown_23, getKP_armsDown_24]
  rintro ⟨-, hl, -⟩
  have h1 : vsub (⟨-0.5, 0, 0⟩ : V3) ⟨-0.5, 1, 0⟩ = ⟨0, -1, 0⟩ := by
    norm_num [vsub]
  have h2 : vsub (smul 0.5 (vadd (⟨-0.5, 1, 0⟩ : V3) ⟨0.5, 1, 0⟩))
      (smul 0.5 (vadd (⟨-0.5, 0, 0⟩ : V3) ⟨0.5, 0, 0⟩)) = ⟨0, 1, 0⟩ := by
    norm_num [vsub, vadd, smul]
  rw [h1, h2, normalizeV_unit_y_neg, normalizeV_unit_y_pos] at hl
  norm_num [dotV] at hl

/-! ### C5 — measurement extraction -/

lemma distV_nonneg (a b : V3) : 0 ≤ distV a b := Real.sqrt_nonneg _

/-- C5: on any 33-landmark input the extractor stores exactly the documented
measurements — endpoint distances for shoulder/hip width, midpoint distance
for torso length, and the averaged two-segment sums (shoulder→elbow→wrist,
hip→knee→ankle) for arm/leg length — and all five are non-negative. -/
theorem extract_spec (st : FitState) (kp : List Keypoint) (h : 33 ≤ kp.length) :
    (calculateBodyMeasurements st (some kp)).userMeasurements =
      { shoulderWidth := distV (getKP kp 11) (getKP kp 12)
        torsoLength := distV (smul 0.5 (vadd (getKP kp 11) (getKP kp 12)))
                             (smul 0.5 (vadd (getKP kp 23) (getKP kp 24)))
        armLength := ((distV (getKP kp 11) (getKP kp 13) + distV (getKP kp 13) (getKP kp 15)) +
                      (distV (getKP kp 12) (getKP kp 14) + distV (getKP kp 14) (getKP kp 16))) / 2
        legLength := ((distV (getKP kp 23) (getKP kp 25) + distV (getKP kp 25) (getKP kp 27)) +
                      (distV (getKP kp 24) (getKP kp 26) + distV (getKP kp 26) (getKP kp 28))) / 2
        hipWidth := distV (getKP kp 23) (getKP kp 24) } ∧
    0 ≤ (calculateBodyMeasurements st (some kp)).userMeasurements.shoulderWidth ∧
    0 ≤ (calculateBodyMeasurements st (some kp)).userMeasurements.hipWidth ∧
    0 ≤ (calculateBodyMeasurements st (some kp)).userMeasurements.torsoLength ∧
    0 ≤ (calculateBodyMeasurements st (some kp)).userMeasurements.armLength ∧
    0 ≤ (calculateBodyMeasurements st (some kp)).userMeasurements.legLength := by
  have hm : calculateBodyMeasurements st (some kp) =
      { st with userMeasurements := measurementsOf kp } := by
    rw [calculateBodyMeasurements, if_neg (not_lt.mpr h)]
  rw [hm]
  refine ⟨rfl, ?_, ?_, ?_, ?_, ?_⟩
  · exact distV_nonneg _ _
  · exact distV_nonneg _ _
  · exact distV_nonneg _ _
  · exact div_nonneg
      (add_nonneg (add_nonneg (distV_nonneg _ _) (distV_nonneg _ _))
        (add_nonneg (distV_nonneg _ _) (distV_nonneg _ _))) (by norm_num)
  · exact div_nonneg
      (add_nonneg (add_nonneg (distV_nonneg _ _) (distV_nonneg _ _))
        (add_nonneg (distV_nonneg _ _) (distV_nonneg _ _))) (by norm_num)

/-- Witness for C5: the length hypothesis discharged on the synthetic T-pose
frame. -/
theorem extract_spec_witness :
    0 ≤ (calculateBodyMeasurements initState (some tposeKP)).userMeasurements.shoulderWidth :=
  (extract_spec initState tposeKP (by rw [tposeKP, length_mkKP])).2.1

/-! ### C4 — calibration atomicity -/

/-- C4: `calibrate` is atomic — a missing array, a short array, or a failed
T-pose check yields `false` with the state (measurements and `isCalibrated`)
untouched and no exception; a passing T-pose check on a 33-landmark input
overwrites the measurements from that input, sets `isCalibrated`, and
returns `true`. -/
theorem calibrate_atomic :
    (∀ st : FitState, calibrate st none = (false, st)) ∧
    (∀ (st : FitState) (kp : List Keypoint), kp.length < 33 →
        calibrate st (some kp) = (false, st)) ∧
    (∀ (st : FitState) (kp : List Keypoint), ¬checkTpose kp →
        calibrate st (some kp) = (false, st)) ∧
    (∀ (st : FitState) (kp : List Keypoint), 33 ≤ kp.length → checkTpose kp →
        calibrate st (some kp) =
          (true, { st with userMeasurements := measurementsOf kp,
                           isCalibrated := true })) := by
  refine ⟨fun st => rfl, fun st kp h => ?_, fun st kp h => ?_, fun st kp h33 hT => ?_⟩
  · rw [calibrate, if_pos h]
  · rw [calibrate]
    by_cases hlen : kp.length < 33
    · rw [if_pos hlen]
    · rw [if_neg hlen, if_neg h]
  · rw [calibrate, if_neg (not_lt.mpr h33), if_pos hT, calculateBodyMeasurements,
      if_neg (not_lt.mpr h33)]

/-- Witness for C4: the T-pose hypothesis discharged on the synthetic T-pose
frame. -/
theorem calibrate_atomic_witness :
    calibrate initState (some tposeKP) =
      (true, { initState with userMeasurements := measurementsOf tposeKP,
                              isCalibrated := true }) :=
  calibrate_atomic.2.2.2 initState tposeKP (by rw [tposeKP, length_mkKP])
    checkTpose_tposeKP

/-! ### C2 — T-pose gate -/

/-- C2: on a 33-landmark input the T-pose check holds exactly when both
normalized shoulder→wrist vectors have absolute dot product strictly below
0.3 with the normalized hip-mid→shoulder-mid vector; on the synthetic frame
with both arms perpendicular to the torso `calibrate` returns `true`, and
with arms hanging parallel to the torso it returns `false`. -/
theorem tpose_gate_spec :
    (∀ kp : List Keypoint, 33 ≤ kp.length →
      (checkTpose kp ↔
        (|dotV (normalizeV (vsub (getKP kp 15) (getKP kp 11)))
              (normalizeV (vsub (smul 0.5 (vadd (getKP kp 11) (getKP kp 12)))
                                (smul 0.5 (vadd (getKP kp 23) (getKP kp 24)))))| < 0.3 ∧
         |dotV (normalizeV (vsub (getKP kp 16) (getKP kp 12)))
              (normalizeV (vsub (smul 0.5 (vadd (getKP kp 11) (getKP kp 12)))
                                (smul 0.5 (vadd (getKP kp 23) (getKP kp 24)))))| < 0.3))) ∧
    (calibrate initState (some tposeKP)).1 = true ∧
    (calibrate initState (some armsDownKP)).1 = false := by
  refine ⟨fun kp h => ?_, ?_, ?_⟩
  · unfold checkTpose
    constructor
    · rintro ⟨-, hl, hr⟩; exact ⟨hl, hr⟩
    · rintro ⟨hl, hr⟩; exact ⟨h, hl, hr⟩
  · rw [calibrate, if_neg (not_lt.mpr (le_of_eq (by rw [tposeKP, length_mkKP]))),
      if_pos checkTpose_tposeKP]
  · rw [calibrate]
    by_cases hlen : armsDownKP.length < 33
    · rw [if_pos hlen]
    · rw [if_neg hlen, if_neg not_checkTpose_armsDownKP]

/-- Witness for C2: the length hypothesis discharged on the synthetic T-pose
frame, recovering the gate through the equivalence. -/
theorem tpose_gate_spec_witness : checkTpose tposeKP :=
  (tpose_gate_spec.1 tposeKP (by rw [tposeKP, length_mkKP])).mpr
    ⟨checkTpose_tposeKP.2.1, checkTpose_tposeKP.2.2⟩

/-! ### C1 — solver scale formulas -/

/-- C1: for any 33-landmark input and non-zero base measurements, the
`tshirt`/`shirt` target scale is
`(shoulderWidth/baseShoulderWidth·sa, torsoLength/baseTorsoLength·sa,
average of the two ratios·sa)`, and the `jacket`/`hoodie` target scale uses
the same formulas with the shoulder ratio inflated ×1.1 and the torso ratio
×1.05 before assembly. -/
theorem solver_scale_spec (kp : List Keypoint) (base : BaseMeasurements)
    (sa : ℝ) (h33 : 33 ≤ kp.length) (hs : base.shoulderWidth ≠ 0)
    (ht : base.torsoLength ≠ 0) :
    ((solveTarget kp base sa "tshirt").scale =
      ⟨distV (getKP kp 11) (getKP kp 12) / base.shoulderWidth * sa,
       distV (smul 0.5 (vadd (getKP kp 11) (getKP kp 12)))
             (smul 0.5 (vadd (getKP kp 23) (getKP kp 24))) / base.torsoLength * sa,
       (distV (getKP kp 11) (getKP kp 12) / base.shoulderWidth +
        distV (smul 0.5 (vadd (getKP kp 11) (getKP kp 12)))
              (smul 0.5 (vadd (getKP kp 23) (getKP kp 24))) / base.torsoLength) / 2 * sa⟩) ∧
    (solveTarget kp base sa "shirt").scale = (solveTarget kp base sa "tshirt").scale ∧
    ((solveTarget kp base sa "jacket").scale =
      ⟨distV (getKP kp 11) (getKP kp 12) / base.shoulderWidth * 1.1 * sa,
       distV (smul 0.5 (vadd (getKP kp 11) (getKP kp 12)))
             (smul 0.5 (vadd (getKP kp 23) (getKP kp 24))) / base.torsoLength * 1.05 * sa,
       (distV (getKP kp 11) (getKP kp 12) / base.shoulderWidth * 1.1 +
        distV (smul 0.5 (vadd (getKP kp 11) (getKP kp 12)))
              (smul 0.5 (vadd (getKP kp 23) (getKP kp 24))) / base.torsoLength * 1.05) / 2 * sa⟩) ∧
    (solveTarget kp base sa "hoodie").scale = (solveTarget kp base sa "jacket").scale := by
  refine ⟨?_, ?_, ?_, ?_⟩
  · rw [solveTarget, if_pos (Or.inl rfl)]
  · rw [solveTarget, if_pos (Or.inr rfl)]
    rw [solveTarget, if_pos (Or.inl rfl)]
  · rw [solveTarget, if_neg (by decide), if_pos (Or.inl rfl)]
  · rw [solveTarget, if_neg (by decide), if_pos (Or.inr rfl)]
    rw [solveTarget, if_neg (by decide), if_pos (Or.inl rfl)]

/-- Witness for C1: length and non-zero-base hypotheses discharged on the
synthetic T-pose frame with the `ModelLoader` default base measurements. -/
theorem solver_scale_spec_witness :
    (solveTarget tposeKP base0 1 "shirt").scale =
      (solveTarget tposeKP base0 1 "tshirt").scale :=
  (solver_scale_spec tposeKP base0 1 (by rw [tposeKP, length_mkKP])
    (by norm_num [base0]) (by norm_num [base0])).2.1

/-! ### C10 — keypoint conversion totality -/

lemma keypointToVector3_sanitizeKP (k : Keypoint) :
    keypointToVector3 (sanitizeKP k) = keypointToVector3 k := by
  cases k with
  | undef => simp [sanitizeKP, keypointToVector3]
  | mk x y z v => cases x <;> simp [sanitizeKP, keypointToVector3]

lemma getKP_map_sanitizeKP (kp : List Keypoint) (i : ℕ) :
    getKP (kp.map sanitizeKP) i = getKP kp i := by
  rw [getKP, getKP, List.getD_eq_getElem?_getD, List.getD_eq_getElem?_getD,
    List.getElem?_map]
  cases kp[i]? with
  | none => rfl
  | some k => exact keypointToVector3_sanitizeKP k

lemma measurementsOf_map_sanitizeKP (kp : List Keypoint) :
    measurementsOf (kp.map sanitizeKP) = measurementsOf kp := by
  simp only [measurementsOf, getKP_map_sanitizeKP]

lemma checkTpose_map_sanitizeKP (kp : List Keypoint) :
    checkTpose (kp.map sanitizeKP) ↔ checkTpose kp := by
  unfold checkTpose
  simp only [getKP_map_sanitizeKP, List.length_map]

/-- C10: the keypoint→vector conversion is total — `null`/`undefined` entries
and entries with a non-numeric `x` become the zero vector, well-formed
entries become `(x, -y, -z)` — and consequently replacing every invalid
entry by a well-formed zero-position entry changes nothing in measurement
extraction, the T-pose check, target solving, or calibration: invalid
entries are folded in as degenerate zero positions, never rejected and never
a source of exceptions. -/
theorem keypoint_total_spec :
    keypointToVector3 .undef = ⟨0, 0, 0⟩ ∧
    (∀ y z v : ℝ, keypointToVector3 (.mk none y z v) = ⟨0, 0, 0⟩) ∧
    (∀ x y z v : ℝ, keypointToVector3 (.mk (some x) y z v) = ⟨x, -y, -z⟩) ∧
    (∀ kp : List Keypoint,
      measurementsOf (kp.map sanitizeKP) = measurementsOf kp ∧
      (checkTpose (kp.map sanitizeKP) ↔ checkTpose kp) ∧
      (∀ (base : BaseMeasurements) (sa : ℝ) (mt : String),
        solveTarget (kp.map sanitizeKP) base sa mt = solveTarget kp base sa mt) ∧
      (∀ st : FitState,
        calibrate st (some (kp.map sanitizeKP)) = calibrate st (some kp))) := by
  refine ⟨rfl, fun y z v => rfl, fun x y z v => rfl, fun kp => ⟨?_, ?_, ?_, ?_⟩⟩
  · exact measurementsOf_map_sanitizeKP kp
  · exact checkTpose_map_sanitizeKP kp
  · intro base sa mt
    unfold solveTarget
    simp only [getKP_map_sanitizeKP]
  · intro st
    have hct : checkTpose (kp.map sanitizeKP) = checkTpose kp :=
      propext (checkTpose_map_sanitizeKP kp)
    have hm : calculateBodyMeasurements st (some (kp.map sanitizeKP)) =
        calculateBodyMeasurements st (some kp) := by
      unfold calculateBodyMeasurements
      simp only [List.length_map, measurementsOf_map_sanitizeKP]
    unfold calibrate
    simp only [List.length_map, hct, hm]

/-! ### C6 — transform smoother first frame -/

lemma mapGet_mapSet_self (m : List (ℕ × Transform)) (k : ℕ) (v : Transform) :
    mapGet (mapSet m k v) k = some v := by
  induction m with
  | nil => simp [mapGet, mapSet]
  | cons p t ih =>
    by_cases hp : p.1 = k
    · simp [mapGet, mapSet, List.find?_cons, hp]
    · have hd : (decide (p.1 = k)) = false := decide_eq_false hp
      rcases hfind : t.find? (fun q => decide (q.1 = k)) with _ | q
      · have hset : mapSet (p :: t) k v = p :: (t ++ [(k, v)]) := by
          rw [mapSet, if_neg]
          · rfl
          · simp [List.find?_cons, hd, hfind]
        have ih' := ih
        rw [mapSet, if_neg (by simp [hfind])] at ih'
        rw [mapGet] at ih'
        rw [hset, mapGet, List.find?_cons, hd]
        exact ih'
      · have hset : mapSet (p :: t) k v =
            p :: t.map fun q => if q.1 = k then (k, v) else q := by
          rw [mapSet, if_pos]
          · simp [hp]
          · simp [List.find?_cons, hd, hfind]
        have ih' := ih
        rw [mapSet, if_pos (by simp [hfind])] at ih'
        rw [mapGet] at ih'
        rw [hset, mapGet, List.find?_cons, hd]
        exact ih'

lemma calculateFitQuality_previousTransforms (st : FitState) (mt : String)
    (kp? : Option (List Keypoint)) (m? : Option ModelState) :
    (calculateFitQuality st mt kp? m?).previousTransforms =
      st.previousTransforms := by
  unfold calculateFitQuality
  rcases kp? with _ | kp <;> rcases m? with _ | m <;> try rfl
  dsimp only
  split_ifs <;> rfl

/-- C6 amended: on the first call for an unseen key the smoother does insert
the target as the persisted entry, but smoothing still happens on that
frame — the applied position/rotation/scale are the mesh's pre-existing
transform interpolated toward the target with weight `1 - smoothingFactor`
(lerp for position and scale, slerp for rotation), and the persisted entry
ends up holding this applied transform, not the target. -/
theorem smoother_first_frame_spec
    (st : FitState) (m : ModelState) (kp : List Keypoint)
    (base : BaseMeasurements) (opts : FitOptions)
    (h33 : 33 ≤ kp.length)
    (hnew : mapGet st.previousTransforms m.uuid = none) :
    (updateModelFit st (some m) (some kp) base opts).2.1 =
      some { m with
        position := lerpV m.position
          (solveTarget kp base opts.sizeAdjustment opts.modelType).position
          (1 - st.smoothingFactor)
        quaternion := slerpQ m.quaternion
          (solveTarget kp base opts.sizeAdjustment opts.modelType).rotation
          (1 - st.smoothingFactor)
        scale := lerpV m.scale
          (solveTarget kp base opts.sizeAdjustment opts.modelType).scale
          (1 - st.smoothingFactor) } ∧
    mapGet (updateModelFit st (some m) (some kp) base opts).1.previousTransforms
        m.uuid =
      some ⟨lerpV m.position
              (solveTarget kp base opts.sizeAdjustment opts.modelType).position
              (1 - st.smoothingFactor),
            slerpQ m.quaternion
              (solveTarget kp base opts.sizeAdjustment opts.modelType).rotation
              (1 - st.smoothingFactor),
            lerpV m.scale
              (solveTarget kp base opts.sizeAdjustment opts.modelType).scale
              (1 - st.smoothingFactor)⟩ := by
  have hlen : ¬kp.length < 33 := not_lt.mpr h33
  constructor
  · rw [updateModelFit, if_neg hlen]
  · rw [updateModelFit, if_neg hlen]
    rw [calculateFitQuality_previousTransforms]
    exact mapGet_mapSet_self _ _ _

/-- Witness for C6's amended theorem: length and unseen-key hypotheses
discharged on a fresh mesh and the synthetic T-pose frame. -/
theorem smoother_first_frame_spec_witness :
    mapGet (updateModelFit initState (some model0) (some tposeKP) base0
        {}).1.previousTransforms model0.uuid =
      some ⟨lerpV model0.position
              (solveTarget tposeKP base0 ({} : FitOptions).sizeAdjustment
                ({} : FitOptions).modelType).position
              (1 - initState.smoothingFactor),
            slerpQ model0.quaternion
              (solveTarget tposeKP base0 ({} : FitOptions).sizeAdjustment
                ({} : FitOptions).modelType).rotation
              (1 - initState.smoothingFactor),
            lerpV model0.scale
              (solveTarget tposeKP base0 ({} : FitOptions).sizeAdjustment
                ({} : FitOptions).modelType).scale
              (1 - initState.smoothingFactor)⟩ :=
  (smoother_first_frame_spec initState model0 tposeKP base0 {}
    (by rw [tposeKP, length_mkKP]) rfl).2

/-- The target position the tshirt branch computes on the synthetic T-pose
frame (independent of the size adjustment). -/
lemma solveTarget_tpose_position (sa : ℝ) :
    (solveTarget tposeKP base0 sa "tshirt").position = ⟨0, 0.5, 0⟩ := by
  rw [solveTarget, if_pos (Or.inl rfl)]
  simp only [getKP_tpose_11, getKP_tpose_12, getKP_tpose_23, getKP_tpose_24]
  norm_num [vadd, smul]

/-- Counterexample for C6: first call on a fresh mesh at the origin — the
applied position is `(0, 0.1, 0)`, not the target `(0, 0.5, 0)`: the first
frame is smoothed from the mesh's pre-existing transform, so the applied
transform does not equal the target. -/
theorem smoother_first_frame_cex :
    mapGet initState.previousTransforms model0.uuid = none ∧
    ((updateModelFit initState (some model0) (some tposeKP) base0 {}).2.2.map
        fun r => r.position) = some ⟨0, 0.1, 0⟩ ∧
    (solveTarget tposeKP base0 1 "tshirt").position = ⟨0, 0.5, 0⟩ ∧
    ((⟨0, 0.1, 0⟩ : V3) ≠ ⟨0, 0.5, 0⟩) := by
  refine ⟨rfl, ?_, solveTarget_tpose_position 1, ?_⟩
  · have hlen : ¬tposeKP.length < 33 := by rw [tposeKP, length_mkKP]; norm_num
    rw [updateModelFit, if_neg hlen]
    dsimp only
    rw [solveTarget_tpose_position]
    norm_num [lerpV, model0, initState]
  · intro h
    have := congrArg V3.y h
    norm_num at this

end VTO
